import Mathlib

/-!
Verification of the foraging-condition evaluator of the mushroom backend
(src/main.py).  The evaluator is pure: `average` (line 357) reduces a list
of possibly-missing readings to a scalar, the inline logic of the
`check_conditions` endpoint (lines 674-693) classifies the four averages
into a quality tier and matches them against the static table
`MUSHROOM_PROFILES` (lines 96-110).  Python numbers are modelled by ℚ
(the comparisons and the divisions in the source are exact on the rational
inputs that appear in the claims), missing readings (`None`) by `Option`.
-/

namespace MushroomBackend

/-- Environmental tolerance record of one mushroom species, after
`MUSHROOM_PROFILES` entries (src/main.py 96-110): `temp_range` is split
into its two components `temp_min`, `temp_max`. -/
structure Profile where
  temp_min : ℚ
  temp_max : ℚ
  humidity_min : ℚ
  rain_min : ℚ
  rain_max : ℚ
  wind_max : ℚ
deriving DecidableEq, Repr

/-- The static species table `MUSHROOM_PROFILES` (src/main.py 96-110), in
declaration order; a Python dict preserves insertion order. -/
def MUSHROOM_PROFILES : List (String × Profile) :=
  [ ("porcini", ⟨12, 28, 70, 0.1, 80, 16⟩),
    ("pine_rings", ⟨10, 22, 65, 0.1, 80, 16⟩),
    ("poplar_boletes", ⟨10, 23, 60, 0.1, 35, 16⟩),
    ("agaricus", ⟨14, 26, 65, 0.8, 50, 11⟩),
    ("white_parasols", ⟨13, 28, 60, 0, 30, 12⟩),
    ("wood_blewits", ⟨4, 8, 70, 5, 50, 12⟩),
    ("morels", ⟨12, 21, 70, 10, 50, 4⟩),
    ("blushers", ⟨8, 26, 60, 0.1, 35, 16⟩),
    ("slippery_jills", ⟨9, 24, 65, 0.5, 30, 15⟩),
    ("weeping_bolete", ⟨9, 23, 60, 0.5, 25, 15⟩),
    ("bovine_bolete", ⟨9, 22, 60, 0.5, 28, 15⟩),
    ("chicken_of_the_woods", ⟨23, 30, 70, 10, 40, 10⟩),
    ("termitomyces", ⟨20, 32, 80, 15, 50, 4⟩) ]

/-- `average(values)` (src/main.py 357-359): drop the `None` entries, then
the arithmetic mean of the remainder, or 0 when nothing remains.
`List.filterMap id` is the comprehension `[v for v in values if v is not
None]` together with the unwrapping of the optional values. -/
def average (values : List (Option ℚ)) : ℚ :=
  let clean := values.filterMap id
  if clean.isEmpty then 0 else clean.sum / (clean.length : ℚ)

/-- The four quality tiers.  The source (src/main.py 674-681) returns a
fixed message string for each tier; the spec names the tiers "perfect",
"good", "average", "poor", and each tier corresponds to exactly one of the
four message strings, so an enumeration is a faithful model. -/
inductive Quality where
  | perfect
  | good
  | average
  | poor
deriving DecidableEq, Repr

/-- The tier classification, the if/elif/elif/else chain of
`check_conditions` (src/main.py 674-681), argument order as in the source
conditions: temperature, rain, humidity, wind. -/
def classify_quality (avg_temp avg_rain avg_humidity avg_wind : ℚ) : Quality :=
  if avg_temp ≥ 19 ∧ avg_rain ≤ 40 ∧ avg_humidity ≥ 90 ∧ avg_wind ≤ 8 then
    Quality.perfect
  else if avg_temp ≥ 15 ∧ avg_rain ≤ 20 ∧ avg_humidity ≥ 70 ∧ avg_wind ≤ 12 then
    Quality.good
  else if avg_temp ≥ 12 ∧ avg_rain ≤ 10 ∧ avg_humidity ≥ 60 ∧ avg_wind ≤ 15 then
    Quality.average
  else
    Quality.poor

/-- The per-species condition of the recommendation loop (src/main.py
687-692); the Python chained comparisons `t_min <= avg_temp <= t_max` and
`rain_min <= avg_rain <= rain_max` are the corresponding conjunctions. -/
def matches_profile (p : Profile) (avg_temp avg_humidity avg_rain avg_wind : ℚ) : Bool :=
  decide (p.temp_min ≤ avg_temp ∧ avg_temp ≤ p.temp_max ∧
          p.humidity_min ≤ avg_humidity ∧
          p.rain_min ≤ avg_rain ∧ avg_rain ≤ p.rain_max ∧
          avg_wind ≤ p.wind_max)

/-- The recommendation loop of `check_conditions` (src/main.py 684-693):
walk the profile table in order and collect the names of the species whose
condition holds. -/
def recommend_species (avg_temp avg_humidity avg_rain avg_wind : ℚ)
    (profiles : List (String × Profile)) : List String :=
  (profiles.filter
      (fun np => matches_profile np.2 avg_temp avg_humidity avg_rain avg_wind)).map
    Prod.fst

/-- Division that signals a zero divisor, modelling Python's
`ZeroDivisionError`. -/
def divChecked (a b : ℚ) : Option ℚ :=
  if b = 0 then none else some (a / b)

/-- `average` with the division modelled as fallible: the source divides
`sum(clean)` by `len(clean)` only in the branch where `clean` is
non-empty, and returns 0 otherwise (src/main.py 359). -/
def averageChecked (values : List (Option ℚ)) : Option ℚ :=
  let clean := values.filterMap id
  if clean.isEmpty then some 0 else divChecked clean.sum (clean.length : ℚ)

/-- A list all of whose entries are `none` filters to the empty list. -/
theorem filterMap_id_eq_nil_of_all_none (l : List (Option ℚ))
    (hl : ∀ x ∈ l, x = none) : l.filterMap id = [] := by
  induction l with
  | nil => rfl
  | cons hd tl ih =>
    have hhd := hl hd (List.mem_cons_self _ _)
    subst hhd
    simpa using ih (fun x hx => hl x (List.mem_cons_of_mem _ hx))

/-- The species matching condition only constrains humidity from below and
wind from above, so it is preserved when humidity rises and wind drops. -/
theorem matches_profile_mono (p : Profile) (t r h1 h2 w1 w2 : ℚ)
    (hh : h1 ≤ h2) (hw : w2 ≤ w1)
    (hm : matches_profile p t h1 r w1 = true) :
    matches_profile p t h2 r w2 = true := by
  simp only [matches_profile, decide_eq_true_eq] at hm ⊢
  exact ⟨hm.1, hm.2.1, hm.2.2.1.trans hh, hm.2.2.2.1, hm.2.2.2.2.1,
    hw.trans hm.2.2.2.2.2⟩

/-- Over a profile table with no repeated species name, a name appears in
the recommendation output exactly when its profile's condition holds. -/
theorem mem_recommend_iff_of_nodup (profiles : List (String × Profile))
    (t h r w : ℚ) (n : String) (p : Profile)
    (hnd : (profiles.map Prod.fst).Nodup) (hmem : (n, p) ∈ profiles) :
    n ∈ recommend_species t h r w profiles ↔
      matches_profile p t h r w = true := by
  induction profiles with
  | nil => cases hmem
  | cons hd tl ih =>
    simp only [List.map_cons, List.nodup_cons] at hnd
    rcases List.mem_cons.mp hmem with heq | htl
    · subst heq
      unfold recommend_species
      rw [List.filter_cons]
      cases hf : matches_profile p t h r w with
      | true => simp [hf]
      | false =>
        simp only [hf, Bool.false_eq_true, if_neg, ite_false]
        constructor
        · intro hin
          have hin2 : n ∈ tl.map Prod.fst :=
            List.map_subset Prod.fst (List.filter_subset' _) hin
          exact absurd hin2 hnd.1
        · intro hc
          cases hc
    · have hn : n ∈ tl.map Prod.fst := List.mem_map.mpr ⟨(n, p), htl, rfl⟩
      have hne : n ≠ hd.1 := fun he => hnd.1 (he ▸ hn)
      unfold recommend_species
      rw [List.filter_cons]
      cases hf : matches_profile hd.2 t h r w with
      | true =>
        simp only [if_pos, ite_true, List.map_cons, List.mem_cons]
        rw [or_iff_right hne]
        exact ih hnd.2 htl
      | false =>
        simp only [Bool.false_eq_true, if_neg, ite_false]
        exact ih hnd.2 htl

/-- Claim C5: for hourly temperatures [18,19,20,21,22], humidity
[91,92,90,93,89], wind [7,8,6,5,9] and daily rain [5,3,2,0,1], the
averages are 20, 91, 7 and 2.2, and the classification of those averages
is the perfect tier. -/
theorem perfect_scenario :
    average [some 18, some 19, some 20, some 21, some 22] = 20 ∧
    average [some 91, some 92, some 90, some 93, some 89] = 91 ∧
    average [some 7, some 8, some 6, some 5, some 9] = 7 ∧
    average [some 5, some 3, some 2, some 0, some 1] = 2.2 ∧
    classify_quality 20 2.2 91 7 = Quality.perfect := by
  norm_num [average, List.filterMap, classify_quality]

/-- Claim C7: the tiers are not disjoint partitions: an input whose
temperature and rain satisfy the tier-1 thresholds but whose humidity is
too low for every positive tier is classified poor. -/
theorem tiers_not_disjoint :
    ∃ t r h w : ℚ, 19 ≤ t ∧ r ≤ 40 ∧ classify_quality t r h w = Quality.poor :=
  ⟨19, 0, 0, 0, by norm_num [classify_quality]⟩

/-- Claim C10: quality tier and recommendation list are independent: there
is an input classified poor whose recommendation list is non-empty. -/
theorem poor_day_with_recommendations :
    ∃ t h r w : ℚ, classify_quality t r h w = Quality.poor ∧
      recommend_species t h r w MUSHROOM_PROFILES ≠ [] :=
  ⟨10, 70, 5, 5, by
    norm_num [classify_quality, recommend_species, MUSHROOM_PROFILES,
      matches_profile, List.filter]
    exact List.cons_ne_nil _ _⟩

/-- Claim C1: the classification evaluates the four tiers in strict order
and returns the first match, with poor as unconditional fallback: the
result is perfect exactly on the tier-1 condition, good exactly when
tier 1 fails and tier 2 holds, average exactly when tiers 1 and 2 fail
and tier 3 holds, and poor exactly when all three fail; in particular an
input satisfying tiers 1 and 2 simultaneously is classified perfect. -/
theorem classify_quality_tiers (t r h w : ℚ) :
    (classify_quality t r h w = Quality.perfect ↔
      (19 ≤ t ∧ r ≤ 40 ∧ 90 ≤ h ∧ w ≤ 8)) ∧
    (classify_quality t r h w = Quality.good ↔
      (¬(19 ≤ t ∧ r ≤ 40 ∧ 90 ≤ h ∧ w ≤ 8) ∧
        (15 ≤ t ∧ r ≤ 20 ∧ 70 ≤ h ∧ w ≤ 12))) ∧
    (classify_quality t r h w = Quality.average ↔
      (¬(19 ≤ t ∧ r ≤ 40 ∧ 90 ≤ h ∧ w ≤ 8) ∧
        ¬(15 ≤ t ∧ r ≤ 20 ∧ 70 ≤ h ∧ w ≤ 12) ∧
        (12 ≤ t ∧ r ≤ 10 ∧ 60 ≤ h ∧ w ≤ 15))) ∧
    (classify_quality t r h w = Quality.poor ↔
      (¬(19 ≤ t ∧ r ≤ 40 ∧ 90 ≤ h ∧ w ≤ 8) ∧
        ¬(15 ≤ t ∧ r ≤ 20 ∧ 70 ≤ h ∧ w ≤ 12) ∧
        ¬(12 ≤ t ∧ r ≤ 10 ∧ 60 ≤ h ∧ w ≤ 15))) := by
  unfold classify_quality
  split_ifs with h1 h2 h3 <;> simp_all [ge_iff_le]

/-- Claim C2: a species of the table is recommended exactly when all four
profile conditions hold, each bound inclusive. -/
theorem recommend_species_iff (n : String) (p : Profile)
    (hmem : (n, p) ∈ MUSHROOM_PROFILES) (t h r w : ℚ) :
    n ∈ recommend_species t h r w MUSHROOM_PROFILES ↔
      (p.temp_min ≤ t ∧ t ≤ p.temp_max ∧ p.humidity_min ≤ h ∧
       p.rain_min ≤ r ∧ r ≤ p.rain_max ∧ w ≤ p.wind_max) := by
  rw [mem_recommend_iff_of_nodup MUSHROOM_PROFILES t h r w n p
    (by simp [MUSHROOM_PROFILES]) hmem]
  simp [matches_profile]

/-- Witness for C2 at the porcini entry of the table, evaluated at
averages (20, 75, 10, 5); both bound inclusivity directions follow. -/
theorem recommend_species_iff_witness :
    (("porcini", (⟨12, 28, 70, 0.1, 80, 16⟩ : Profile)) ∈ MUSHROOM_PROFILES) ∧
    ("porcini" ∈ recommend_species 20 75 10 5 MUSHROOM_PROFILES ↔
      ((12 : ℚ) ≤ 20 ∧ (20 : ℚ) ≤ 28 ∧ (70 : ℚ) ≤ 75 ∧
       (0.1 : ℚ) ≤ 10 ∧ (10 : ℚ) ≤ 80 ∧ (5 : ℚ) ≤ 16)) :=
  ⟨by simp [MUSHROOM_PROFILES],
   recommend_species_iff "porcini" ⟨12, 28, 70, 0.1, 80, 16⟩
     (by simp [MUSHROOM_PROFILES]) 20 75 10 5⟩

/-- Claim C3: `average` filters out the null entries and returns the
arithmetic mean of what remains (the rational division `sum / length`
also yields 0 when the filtered list is empty, in agreement with the
source's explicit 0 branch), and in particular the empty, the all-null
and the [10, None, 20] examples evaluate as the spec states. -/
theorem average_spec :
    (∀ values : List (Option ℚ),
      average values =
        (values.filterMap id).sum / ((values.filterMap id).length : ℚ)) ∧
    (∀ values : List (Option ℚ),
      values.filterMap id = [] → average values = 0) ∧
    average ([] : List (Option ℚ)) = 0 ∧
    average [none, none] = 0 ∧
    average [some 10, none, some 20] = 15 := by
  refine ⟨?_, ?_, ?_, ?_, ?_⟩
  · intro values
    unfold average
    by_cases hx : values.filterMap id = []
    · simp [hx]
    · simp [List.isEmpty_iff, hx]
  · intro values hx
    unfold average
    simp [hx]
  · rfl
  · rfl
  · norm_num [average, List.filterMap]

/-- Claim C8: the division in `average` happens only in the branch where
the filtered list is non-empty, so the zero-divisor branch of the checked
variant is unreachable and the checked variant always succeeds, agreeing
with `average` on every input. -/
theorem averageChecked_total (values : List (Option ℚ)) :
    averageChecked values = some (average values) := by
  unfold averageChecked average divChecked
  by_cases hx : (values.filterMap id).isEmpty
  · simp [hx]
  · have hne : values.filterMap id ≠ [] := by
      simpa [List.isEmpty_iff] using hx
    have hlen : ((values.filterMap id).length : ℚ) ≠ 0 :=
      Nat.cast_ne_zero.mpr (fun h0 => hne (List.length_eq_zero.mp h0))
    simp [hx, hlen]

/-- Claim C4: when every input array consists only of null readings, all
four averages are 0, the classification of those averages falls through
every positive tier to poor, and the recommendation list is empty. -/
theorem all_null_scenario (lt lh lw lr : List (Option ℚ))
    (ht : ∀ x ∈ lt, x = none) (hh : ∀ x ∈ lh, x = none)
    (hw : ∀ x ∈ lw, x = none) (hr : ∀ x ∈ lr, x = none) :
    average lt = 0 ∧ average lh = 0 ∧ average lw = 0 ∧ average lr = 0 ∧
    classify_quality (average lt) (average lr) (average lh) (average lw) =
      Quality.poor ∧
    recommend_species (average lt) (average lh) (average lr) (average lw)
      MUSHROOM_PROFILES = [] := by
  have h0 : ∀ (l : List (Option ℚ)), (∀ x ∈ l, x = none) → average l = 0 := by
    intro l hl
    unfold average
    rw [filterMap_id_eq_nil_of_all_none l hl]
    rfl
  rw [h0 lt ht, h0 lh hh, h0 lw hw, h0 lr hr]
  refine ⟨rfl, rfl, rfl, rfl, ?_, ?_⟩
  · norm_num [classify_quality]
  · norm_num [recommend_species, MUSHROOM_PROFILES, matches_profile,
      List.filter]

/-- Witness for C4 on concrete all-null arrays. -/
theorem all_null_scenario_witness :
    average ([none] : List (Option ℚ)) = 0 ∧
    average ([none, none] : List (Option ℚ)) = 0 ∧
    average ([] : List (Option ℚ)) = 0 ∧
    average ([none] : List (Option ℚ)) = 0 ∧
    classify_quality (average ([none] : List (Option ℚ)))
      (average ([none] : List (Option ℚ)))
      (average ([none, none] : List (Option ℚ)))
      (average ([] : List (Option ℚ))) = Quality.poor ∧
    recommend_species (average ([none] : List (Option ℚ)))
      (average ([none, none] : List (Option ℚ)))
      (average ([none] : List (Option ℚ)))
      (average ([] : List (Option ℚ))) MUSHROOM_PROFILES = [] :=
  all_null_scenario [none] [none, none] [] [none]
    (by simp) (by simp) (by simp) (by simp)

/-- Claim C6: the first table entry is the porcini profile with
temperature range 12-28, humidity minimum 70, rain range 0.1-80 and wind
maximum 16; averages (20, 75, 10, 5) recommend porcini and raising wind
to 20 excludes it. -/
theorem porcini_scenario :
    (("porcini", (⟨12, 28, 70, 0.1, 80, 16⟩ : Profile)) ∈ MUSHROOM_PROFILES) ∧
    "porcini" ∈ recommend_species 20 75 10 5 MUSHROOM_PROFILES ∧
    "porcini" ∉ recommend_species 20 75 10 20 MUSHROOM_PROFILES := by
  refine ⟨by simp [MUSHROOM_PROFILES], ?_, ?_⟩ <;>
    norm_num [recommend_species, MUSHROOM_PROFILES, matches_profile,
      List.filter]

/-- Claim C9: the recommendation is monotone in humidity and antitone in
wind: with temperature and rain fixed, raising humidity and lowering wind
preserves every recommended species, because each profile constrains
humidity only from below and wind only from above. -/
theorem recommend_species_monotone (t r h1 h2 w1 w2 : ℚ)
    (hh : h1 ≤ h2) (hw : w2 ≤ w1) (s : String)
    (hs : s ∈ recommend_species t h1 r w1 MUSHROOM_PROFILES) :
    s ∈ recommend_species t h2 r w2 MUSHROOM_PROFILES := by
  unfold recommend_species at hs ⊢
  rcases List.mem_map.mp hs with ⟨np, hnp, rfl⟩
  rcases List.mem_filter.mp hnp with ⟨hmem, hmatch⟩
  exact List.mem_map.mpr
    ⟨np, List.mem_filter.mpr
      ⟨hmem, matches_profile_mono np.2 t r h1 h2 w1 w2 hh hw hmatch⟩, rfl⟩

/-- Witness for C9: porcini is recommended at humidity 70 and wind 16,
hence also at humidity 75 and wind 5. -/
theorem recommend_species_monotone_witness :
    (70 : ℚ) ≤ 75 ∧ (5 : ℚ) ≤ 16 ∧
    "porcini" ∈ recommend_species 20 70 10 16 MUSHROOM_PROFILES ∧
    "porcini" ∈ recommend_species 20 75 10 5 MUSHROOM_PROFILES :=
  ⟨by norm_num, by norm_num,
   by norm_num [recommend_species, MUSHROOM_PROFILES, matches_profile,
     List.filter],
   recommend_species_monotone 20 10 70 75 16 5 (by norm_num) (by norm_num)
     "porcini"
     (by norm_num [recommend_species, MUSHROOM_PROFILES, matches_profile,
       List.filter])⟩

end MushroomBackend
